import Mathlib

/-!
Verification of the PersonaSync AI-coach client layer
(`frontend/services/ai_coach_api.ts`) and, where the repository ships only
the client, of the backend coaching contract described by the specification.

The TypeScript source is shallowly embedded: enumerations become inductives,
interfaces become structures, the fetch wrapper becomes a pure classification
function over an explicit transport outcome, and the single outbound call is
made observable through a small state monad that logs requests.
-/

namespace PersonaSync

/-- Enumeration `MotivationTrigger` from the source. -/
inductive MotivationTrigger where
  | low_performance
  | high_cancel_rate
  | user_request
  | streak_broken
  | goal_achieved
deriving DecidableEq, Repr

/-- Enumeration `AdviceType` from the source. -/
inductive AdviceType where
  | daily
  | weekly
  | alternative
deriving DecidableEq, Repr

/-- Interface `DailyAdvice` from the source. -/
structure DailyAdvice where
  technique : String
  why_this_works : String
  steps : List String
  duration_suggestion : String
  motivational_note : String
  category_focus : String
  generated_at : String
  model_used : String
deriving DecidableEq, Repr

/-- Interface `WeeklyStatsSnapshot` from the source (numeric fields as naturals). -/
structure WeeklyStatsSnapshot where
  total_sessions : Nat
  completed_sessions : Nat
  cancelled_sessions : Nat
  total_minutes : Nat
  completion_rate : Nat
  daily_breakdown : List (String × Nat)
  category_breakdown : List (String × Nat)
  streak_days : Nat
  best_day_minutes : Nat
deriving DecidableEq, Repr

/-- Interface `WeeklyReport` from the source. -/
structure WeeklyReport where
  week_summary : String
  strengths : List String
  improvements : List String
  highlight : String
  next_week_focus : String
  technique_recommendation : String
  technique_reason : String
  motivational_closing : String
  stats_snapshot : Option WeeklyStatsSnapshot
  period_days : Nat
  generated_at : String
deriving DecidableEq, Repr

/-- Interface `Motivation` from the source. -/
structure Motivation where
  title : String
  message : String
  action : String
  reminder : String
  trigger : MotivationTrigger
  generated_at : String
deriving DecidableEq, Repr

/-- Interface `AlternativeTechnique` from the source. -/
structure AlternativeTechnique where
  technique : String
  why_different : String
  why_suits_you : String
  steps : List String
  try_suggestion : String
deriving DecidableEq, Repr

/-- Interface `FeedbackResponse` from the source. -/
structure FeedbackResponse where
  success : Bool
  message : String
  feedback_id : Nat
  alternative : Option AlternativeTechnique
deriving DecidableEq, Repr

/-- Interface `SessionSummary` from the source. -/
structure SessionSummary where
  reaction : String
  progress_note : String
  next_step : String
  generated_at : String
deriving DecidableEq, Repr

/-- The two literal values of the `status` field of `AIHealthStatus`. -/
inductive HealthState where
  | healthy
  | unhealthy
deriving DecidableEq, Repr

/-- Interface `AIHealthStatus` from the source. -/
structure AIHealthStatus where
  status : HealthState
  model : Option String
  error : Option String
  checked_at : String
deriving DecidableEq, Repr

/-- Interface `FeedbackRequest` from the source; optional fields become `Option`
(a field is `none` exactly when the caller omits it). -/
structure FeedbackRequest where
  technique : String
  liked : Bool
  rejection_reason : Option String
  advice_type : Option AdviceType
deriving DecidableEq, Repr

/-- The error-class hierarchy of the source collapsed to a tag: `base` is a
plain `AICoachError`, the other tags are its three subclasses. -/
inductive ErrorKind where
  | base
  | auth
  | rateLimit
  | unavailable
deriving DecidableEq, Repr

/-- Class `AICoachError` from the source: message, HTTP status code and the
user-facing message, plus the class tag. -/
structure AICoachError where
  kind : ErrorKind
  message : String
  statusCode : Nat
  userMessage : String
deriving DecidableEq, Repr

/-- Class `AICoachAuthError` from the source (its constructor takes no
arguments, so the class has a single value). -/
def AICoachAuthError : AICoachError :=
  { kind := .auth
    message := "Token geçersiz veya süresi dolmuş"
    statusCode := 401
    userMessage := "Oturumunuz sona erdi. Lütfen tekrar giriş yapın." }

/-- Class `AICoachRateLimitError` from the source. -/
def AICoachRateLimitError : AICoachError :=
  { kind := .rateLimit
    message := "AI koç rate limit"
    statusCode := 429
    userMessage := "AI koç şu an yoğun. Birkaç saniye sonra tekrar deneyin." }

/-- Class `AICoachUnavailableError` from the source. -/
def AICoachUnavailableError : AICoachError :=
  { kind := .unavailable
    message := "AI koç servisi kullanılamıyor"
    statusCode := 503
    userMessage := "AI koç şu an kullanılamıyor. Daha sonra tekrar deneyin." }

/-- An HTTP response as the client observes it: the status code, the result of
reading the body as the success payload `T` (`none` when the body is not valid
JSON of that shape), and the result of reading the body as an error object —
`none` when the body is not valid JSON, `some none` when the JSON carries no
`detail` field, `some (some d)` when it carries `detail: d`. -/
structure HttpResponse (T : Type) where
  status : Nat
  jsonOk : Option T
  jsonDetail : Option (Option String)

/-- `Response.ok` of the fetch API: status in the inclusive range 200-299. -/
def HttpResponse.ok {T : Type} (r : HttpResponse T) : Bool :=
  decide (200 ≤ r.status ∧ r.status ≤ 299)

/-- Outcome of one `fetch` call: the promise rejects (network failure) or
resolves to a response. -/
inductive FetchOutcome (T : Type) where
  | networkError (err : String)
  | response (r : HttpResponse T)

/-- Everything `aiCoachFetch` can throw: an `AICoachError` (or subclass), or
the SyntaxError of `response.json()` on a 2xx body that is not valid JSON. -/
inductive ClientError where
  | coach (e : AICoachError)
  | jsonSyntax
deriving DecidableEq, Repr

/-- Lines 286-292 of the source: `errorDetail` starts as the fallback text and
is replaced by `errorBody?.detail` only when the body parses and the field is
present and truthy (the `||` keeps the fallback for an empty string). -/
def extractDetail (jsonDetail : Option (Option String)) : String :=
  match jsonDetail with
  | none => "Bilinmeyen hata"
  | some none => "Bilinmeyen hata"
  | some (some d) => if d = "" then "Bilinmeyen hata" else d

/-- The `switch (response.status)` of `aiCoachFetch`, lines 294-324. -/
def classifyStatus (status : Nat) (errorDetail : String) : AICoachError :=
  if status = 401 then
    AICoachAuthError
  else if status = 429 then
    AICoachRateLimitError
  else if status = 400 then
    { kind := .base, message := errorDetail, statusCode := 400, userMessage := errorDetail }
  else if status = 502 then
    { kind := .base
      message := "Gemini parse hatası"
      statusCode := 502
      userMessage := "AI koç geçici bir sorun yaşıyor. Lütfen tekrar deneyin." }
  else if status = 503 then
    AICoachUnavailableError
  else
    { kind := .base
      message := "HTTP " ++ toString status ++ ": " ++ errorDetail
      statusCode := status
      userMessage := "Bir hata oluştu. Lütfen tekrar deneyin." }

/-- Lines 271-278 of the source: the error thrown when `fetch` itself rejects. -/
def networkFailureError (err : String) : AICoachError :=
  { kind := .base
    message := "Network hatası: " ++ err
    statusCode := 0
    userMessage := "İnternet bağlantınızı kontrol edin." }

/-- The value/throw behaviour of `aiCoachFetch` (lines 261-325) as a function
of the single transport outcome: a rejected fetch throws the network error; an
ok response returns its parsed body (or rethrows the body parse failure); any
other response throws per `classifyStatus` with the extracted detail. -/
def aiCoachFetchPure {T : Type} (outcome : FetchOutcome T) : Except ClientError T :=
  match outcome with
  | .networkError err => .error (.coach (networkFailureError err))
  | .response r =>
      if r.ok then
        match r.jsonOk with
        | some v => .ok v
        | none => .error .jsonSyntax
      else
        .error (.coach (classifyStatus r.status (extractDetail r.jsonDetail)))

/-- Function `isAuthError` from the source: `instanceof AICoachAuthError`,
i.e. the class tag is `auth`. -/
def isAuthError (e : ClientError) : Bool :=
  match e with
  | .coach c => c.kind == ErrorKind.auth
  | .jsonSyntax => false

/-- Function `checkAIHealth` from the source, lines 492-506. The `catch`
covers only the `fetch` await; `return response.json()` is returned without
`await`, so a body that is not valid JSON rejects the returned promise outside
the `try` — that path is the `jsonSyntax` error here. `now` stands for
`new Date().toISOString()`. -/
def checkAIHealth (outcome : FetchOutcome AIHealthStatus) (now : String) :
    Except ClientError AIHealthStatus :=
  match outcome with
  | .networkError _ =>
      .ok { status := .unhealthy
            model := none
            error := some "Servise ulaşılamıyor"
            checked_at := now }
  | .response r =>
      match r.jsonOk with
      | some v => .ok v
      | none => .error .jsonSyntax

/-- JSON values, for the request bodies built by `JSON.stringify`. -/
inductive Json where
  | str (s : String)
  | num (n : Int)
  | boolean (b : Bool)
  | null
  | arr (elems : List Json)
  | obj (fields : List (String × Json))

/-- The wire name of each `MotivationTrigger` value. -/
def triggerString : MotivationTrigger → String
  | .low_performance => "low_performance"
  | .high_cancel_rate => "high_cancel_rate"
  | .user_request => "user_request"
  | .streak_broken => "streak_broken"
  | .goal_achieved => "goal_achieved"

/-- The wire name of each `AdviceType` value. -/
def advTypeString : AdviceType → String
  | .daily => "daily"
  | .weekly => "weekly"
  | .alternative => "alternative"

/-- `JSON.stringify` drops a key whose value is absent. -/
def optField (k : String) (v : Option Json) : List (String × Json) :=
  match v with
  | some j => [(k, j)]
  | none => []

/-- Interface `DailyAdviceRequest` from the source. -/
structure DailyAdviceRequest where
  extra_context : Option String

/-- Interface `WeeklyReportRequest` from the source. -/
structure WeeklyReportRequest where
  days : Option Int

/-- Interface `MotivationRequest` from the source. -/
structure MotivationRequest where
  trigger : Option MotivationTrigger
  user_note : Option String

/-- `JSON.stringify(request)` for a daily-advice request. -/
def DailyAdviceRequest.toJson (r : DailyAdviceRequest) : Json :=
  .obj (optField "extra_context" (r.extra_context.map .str))

/-- `JSON.stringify(request)` for a weekly-report request. -/
def WeeklyReportRequest.toJson (r : WeeklyReportRequest) : Json :=
  .obj (optField "days" (r.days.map .num))

/-- `JSON.stringify(request)` for a motivation request. -/
def MotivationRequest.toJson (r : MotivationRequest) : Json :=
  .obj (optField "trigger" (r.trigger.map (fun t => .str (triggerString t))) ++
        optField "user_note" (r.user_note.map .str))

/-- The object `{ advice_type: 'daily', ...request }` serialized by
`sendFeedback` (line 452-455): the literal puts `advice_type: 'daily'` first,
then spreads the request, whose own `advice_type` (when present) overwrites
the default in place; absent optional fields are dropped by `JSON.stringify`. -/
def sendFeedbackBody (r : FeedbackRequest) : Json :=
  .obj ([("advice_type",
          Json.str (advTypeString (match r.advice_type with
            | some a => a
            | none => .daily))),
         ("technique", Json.str r.technique),
         ("liked", Json.boolean r.liked)] ++
        optField "rejection_reason" (r.rejection_reason.map .str))

/-- One outbound HTTP request as `aiCoachFetch` issues it. -/
structure OutboundRequest where
  url : String
  method : String
  auth : String
  body : Json

/-- Trace state for the client layer: what each successive `fetch` call would
return, and the log of requests issued so far. -/
structure TraceState (T : Type) where
  stream : Nat → FetchOutcome T
  sent : List OutboundRequest

/-- One `fetch` call: logs the request and yields the next transport outcome. -/
def doFetch {T : Type} (req : OutboundRequest) : StateM (TraceState T) (FetchOutcome T) :=
  fun s => (s.stream s.sent.length, { s with sent := s.sent ++ [req] })

/-- `aiCoachFetch` with its single outbound call made observable: build the
URL and headers, issue exactly the one `fetch` the source contains, then
classify the outcome. `baseUrl` stands for `API_BASE_URL` (environment). -/
def aiCoachFetchM {T : Type} (baseUrl endpoint token method : String) (body : Json) :
    StateM (TraceState T) (Except ClientError T) := do
  let outcome ← doFetch
    { url := baseUrl ++ "/api/ai" ++ endpoint
      method := method
      auth := "Bearer " ++ token
      body := body }
  pure (aiCoachFetchPure outcome)

/-- Function `getDailyAdvice` from the source. -/
def getDailyAdvice (baseUrl token : String) (request : DailyAdviceRequest) :
    StateM (TraceState DailyAdvice) (Except ClientError DailyAdvice) :=
  aiCoachFetchM baseUrl "/daily-advice" token "POST" request.toJson

/-- Function `getWeeklyReport` from the source. -/
def getWeeklyReport (baseUrl token : String) (request : WeeklyReportRequest) :
    StateM (TraceState WeeklyReport) (Except ClientError WeeklyReport) :=
  aiCoachFetchM baseUrl "/weekly-report" token "POST" request.toJson

/-- Function `getMotivation` from the source. -/
def getMotivation (baseUrl token : String) (request : MotivationRequest) :
    StateM (TraceState Motivation) (Except ClientError Motivation) :=
  aiCoachFetchM baseUrl "/motivation" token "POST" request.toJson

/-- Function `sendFeedback` from the source. -/
def sendFeedback (baseUrl token : String) (request : FeedbackRequest) :
    StateM (TraceState FeedbackResponse) (Except ClientError FeedbackResponse) :=
  aiCoachFetchM baseUrl "/feedback" token "POST" (sendFeedbackBody request)

/-- Function `getSessionSummary` from the source. -/
def getSessionSummary (baseUrl token : String) (sessionId : Int) :
    StateM (TraceState SessionSummary) (Except ClientError SessionSummary) :=
  aiCoachFetchM baseUrl "/session-summary" token "POST"
    (.obj [("session_id", .num sessionId)])

/-- The user-facing message of a failed client result, when it failed with an
`AICoachError`. -/
def userMessageOf {T : Type} (r : Except ClientError T) : Option String :=
  match r with
  | .error (.coach e) => some e.userMessage
  | _ => none

/-- Function `detectMotivationTrigger` from the source, lines 559-579:
rates are computed with exact rational arithmetic over natural inputs. -/
def detectMotivationTrigger (cancelledToday completedToday minutesToday
    dailyTargetMinutes : Nat) : Option MotivationTrigger :=
  let total : Nat := cancelledToday + completedToday
  let cancelRate : ℚ := if total > 0 then (cancelledToday : ℚ) / (total : ℚ) else 0
  let progressRate : ℚ :=
    if dailyTargetMinutes > 0 then (minutesToday : ℚ) / (dailyTargetMinutes : ℚ) else 0
  if cancelRate > 1/2 ∧ total ≥ 2 then
    some .high_cancel_rate
  else if progressRate ≥ 1 then
    some .goal_achieved
  else if progressRate < 3/10 ∧ minutesToday > 0 then
    some .low_performance
  else
    none

/-- The classification algorithm exactly as the specification words it
(section 4.5): `cancelRate = cancelled/(cancelled+completed)` when `total ≥ 1`
else `0`, `progressRate = minutesToday/dailyTarget` when `target > 0` else `0`,
then the priority chain high_cancel_rate / goal_achieved / low_performance /
no trigger. Kept separate from the translation of the source so the two can
be compared. -/
def specMotivationClassifier (cancelledToday completedToday minutesToday
    dailyTargetMinutes : Nat) : Option MotivationTrigger :=
  let total : Nat := cancelledToday + completedToday
  let cancelRate : ℚ := if total ≥ 1 then (cancelledToday : ℚ) / (total : ℚ) else 0
  let progressRate : ℚ :=
    if dailyTargetMinutes > 0 then (minutesToday : ℚ) / (dailyTargetMinutes : ℚ) else 0
  if cancelRate > 1/2 ∧ total ≥ 2 then
    some .high_cancel_rate
  else if progressRate ≥ 1 then
    some .goal_achieved
  else if progressRate < 3/10 ∧ minutesToday > 0 then
    some .low_performance
  else
    none

/-- Modelled from the spec: the failure modes of the Generative Model Gateway
(section 4.3) — the backend service code is not under `src/`. -/
inductive GatewayFailure where
  | unavailable
  | rateLimited
  | upstreamError
deriving DecidableEq, Repr

/-- Modelled from the spec: the backend error taxonomy of section 7 — the
backend service code is not under `src/`. -/
inductive BackendError where
  | invalidRequest
  | dataUnavailable
  | unavailable
  | rateLimited
  | schemaViolation
  | upstreamError
deriving DecidableEq, Repr

/-- Modelled from the spec: a Gateway failure surfaces under the same name in
the API error taxonomy (sections 4.3 and 7). -/
def mapGatewayFailure : GatewayFailure → BackendError
  | .unavailable => .unavailable
  | .rateLimited => .rateLimited
  | .upstreamError => .upstreamError

/-- Modelled from the spec: the backend weekly-report operation is not under
`src/`. Per sections 4.1, 4.5 and 8, a `days` outside the inclusive range
3-30 is rejected with `InvalidRequest` before any Gateway call; otherwise the
pipeline makes exactly one Gateway call, whose raw output either fails, parses
into a report, or violates the schema. The second component counts the
Gateway calls made. -/
def getWeeklyReportBackend (days : Int)
    (gw : Except GatewayFailure (Option WeeklyReport)) :
    Except BackendError WeeklyReport × Nat :=
  if 3 ≤ days ∧ days ≤ 30 then
    match gw with
    | .error g => (.error (mapGatewayFailure g), 1)
    | .ok none => (.error .schemaViolation, 1)
    | .ok (some rep) => (.ok rep, 1)
  else
    (.error .invalidRequest, 0)

/-- Modelled from the spec: the case-insensitive comparison of section 4.4,
realized as character-wise lowercasing. -/
def lowerString (s : String) : String :=
  String.mk (s.data.map Char.toLower)

/-- Modelled from the spec: the Response Parser/Validator for
`AlternativeTechnique` (section 4.4) is not under `src/`. All text fields
non-empty, at least one step, and the technique must differ case-insensitively
from the excluded technique name; otherwise `SchemaViolation`. -/
def validateAlternativeTechnique (excluded : String) (a : AlternativeTechnique) :
    Except BackendError AlternativeTechnique :=
  if a.technique ≠ "" ∧ a.why_different ≠ "" ∧ a.why_suits_you ≠ "" ∧
      a.try_suggestion ≠ "" ∧ a.steps ≠ [] ∧
      lowerString a.technique ≠ lowerString excluded then
    .ok a
  else
    .error .schemaViolation

/-- Modelled from the spec: the backend `getAlternativeTechnique` operation
(section 4.5) is not under `src/`. One Gateway call whose extracted payload
(`none` when no structured payload could be located) is validated against the
excluded technique. -/
def getAlternativeTechnique (excluded : String)
    (gw : Except GatewayFailure (Option AlternativeTechnique)) :
    Except BackendError AlternativeTechnique :=
  match gw with
  | .error g => .error (mapGatewayFailure g)
  | .ok none => .error .schemaViolation
  | .ok (some a) => validateAlternativeTechnique excluded a

/-- Modelled from the spec: `FeedbackRecord` of section 3 — the backend
persistence code is not under `src/`. -/
structure FeedbackRecord where
  technique : String
  liked : Bool
  rejection_reason : Option String
  advice_type : AdviceType
  created_at : String
deriving DecidableEq, Repr

/-- Modelled from the spec: the Feedback Recorder (section 4.6) is not under
`src/`. It persists the record and answers with success; `altResult` is the
outcome of the synchronous `getAlternativeTechnique` call made when
`liked = false`, and its failure leaves `alternative` null without failing the
recording. -/
def recordFeedback (technique : String) (liked : Bool)
    (rejection_reason : Option String) (advice_type : AdviceType)
    (altResult : Except BackendError AlternativeTechnique)
    (fid : Nat) (now : String) : FeedbackRecord × FeedbackResponse :=
  let record : FeedbackRecord :=
    { technique := technique
      liked := liked
      rejection_reason := rejection_reason
      advice_type := advice_type
      created_at := now }
  let alt : Option AlternativeTechnique :=
    if liked then none
    else
      match altResult with
      | .ok a => some a
      | .error _ => none
  (record,
   { success := true
     message := "Geri bildiriminiz kaydedildi."
     feedback_id := fid
     alternative := alt })

/-- Claim C1: `detectMotivationTrigger` implements the classification algorithm
of the specification — the two definitions agree on every natural-number input —
and the four concrete evaluations of the spec hold: `(2,0,10,60)` gives
high_cancel_rate, `(0,1,60,60)` gives goal_achieved, `(0,1,10,60)` gives
low_performance, and `(0,0,0,60)` gives no trigger. -/
theorem detectMotivationTrigger_matches_spec :
    (∀ c k m t, detectMotivationTrigger c k m t = specMotivationClassifier c k m t) ∧
    detectMotivationTrigger 2 0 10 60 = some .high_cancel_rate ∧
    detectMotivationTrigger 0 1 60 60 = some .goal_achieved ∧
    detectMotivationTrigger 0 1 10 60 = some .low_performance ∧
    detectMotivationTrigger 0 0 0 60 = none := by
  refine ⟨fun c k m t => ?_, ?_, ?_, ?_, ?_⟩
  · have h : (c + k > 0) = (c + k ≥ 1) := propext (by omega)
    simp only [detectMotivationTrigger, specMotivationClassifier, h]
  · norm_num [detectMotivationTrigger]
  · norm_num [detectMotivationTrigger]
  · norm_num [detectMotivationTrigger]
  · norm_num [detectMotivationTrigger]

/-- Claim C2 counterexample: a 400 response whose body is `detail: ""` — the
detail is server-supplied, yet the thrown error's user-facing message is the
fallback text, not the detail verbatim (the `||` on line 289 treats the empty
string as absent). -/
theorem aiCoachFetch_400_empty_detail_counterexample :
    userMessageOf (aiCoachFetchPure (T := Unit)
      (.response { status := 400, jsonOk := none, jsonDetail := some (some "") })) =
      some "Bilinmeyen hata" ∧ ("Bilinmeyen hata" : String) ≠ "" := by
  exact ⟨rfl, by decide⟩

/-- Claim C2 (amended): on every non-2xx response `aiCoachFetch` throws — never
returns normally — the thrown error carries the response's status code, 401
maps to `AICoachAuthError`, 429 to `AICoachRateLimitError` with the backoff
hint, 503 to `AICoachUnavailableError`, and a 400 with a non-empty
server-supplied detail is surfaced with that detail verbatim as the
user-facing message (an absent, unparseable or empty detail falls back to the
generic text). -/
theorem aiCoachFetch_non2xx_contract {T : Type} (r : HttpResponse T)
    (h : ¬(200 ≤ r.status ∧ r.status ≤ 299)) :
    aiCoachFetchPure (.response r) =
      .error (.coach (classifyStatus r.status (extractDetail r.jsonDetail))) ∧
    (classifyStatus r.status (extractDetail r.jsonDetail)).statusCode = r.status ∧
    (r.status = 401 →
      classifyStatus r.status (extractDetail r.jsonDetail) = AICoachAuthError) ∧
    (r.status = 429 →
      classifyStatus r.status (extractDetail r.jsonDetail) = AICoachRateLimitError ∧
      AICoachRateLimitError.userMessage =
        "AI koç şu an yoğun. Birkaç saniye sonra tekrar deneyin.") ∧
    (r.status = 503 →
      classifyStatus r.status (extractDetail r.jsonDetail) = AICoachUnavailableError) ∧
    (∀ d : String, r.status = 400 → r.jsonDetail = some (some d) → d ≠ "" →
      (classifyStatus r.status (extractDetail r.jsonDetail)).userMessage = d) := by
  have hok : r.ok = false := by
    unfold HttpResponse.ok
    exact decide_eq_false h
  refine ⟨?_, ?_, ?_, ?_, ?_, ?_⟩
  · simp [aiCoachFetchPure, hok]
  · unfold classifyStatus
    split_ifs with h1 h2 h3 h4 h5 <;>
      simp_all [AICoachAuthError, AICoachRateLimitError, AICoachUnavailableError]
  · intro h401
    simp [classifyStatus, h401]
  · intro h429
    exact ⟨by simp [classifyStatus, h429], rfl⟩
  · intro h503
    simp [classifyStatus, h503]
  · intro d h400 hd hne
    simp [classifyStatus, h400, extractDetail, hd, hne]

/-- Claim C2 witness: a concrete 401 response is thrown as `AICoachAuthError`. -/
theorem aiCoachFetch_non2xx_contract_witness :
    aiCoachFetchPure (T := Unit)
      (.response { status := 401, jsonOk := none, jsonDetail := none }) =
      .error (.coach AICoachAuthError) := by
  have h := aiCoachFetch_non2xx_contract (T := Unit)
    { status := 401, jsonOk := none, jsonDetail := none } (by decide)
  rw [h.1, h.2.2.1 rfl]

/-- Claim C3: on a 502 response the thrown error's user-facing message is one
fixed generic string, identical for any two response bodies — the raw
schema-violation detail is never surfaced. -/
theorem aiCoachFetch_502_message_body_independent :
    (∀ (j1 j2 : Option Unit) (b1 b2 : Option (Option String)),
      userMessageOf (aiCoachFetchPure
        (.response { status := 502, jsonOk := j1, jsonDetail := b1 })) =
      userMessageOf (aiCoachFetchPure
        (.response { status := 502, jsonOk := j2, jsonDetail := b2 }))) ∧
    (∀ (j : Option Unit) (b : Option (Option String)),
      userMessageOf (aiCoachFetchPure
        (.response { status := 502, jsonOk := j, jsonDetail := b })) =
        some "AI koç geçici bir sorun yaşıyor. Lütfen tekrar deneyin.") :=
  ⟨fun _ _ _ _ => rfl, fun _ _ => rfl⟩

/-- Claim C4: a window of 3-30 days is never rejected as `InvalidRequest`,
and any window outside that range is always rejected as `InvalidRequest` with
zero Gateway calls made. -/
theorem getWeeklyReportBackend_days_validation (days : Int)
    (gw : Except GatewayFailure (Option WeeklyReport)) :
    (3 ≤ days → days ≤ 30 →
      (getWeeklyReportBackend days gw).1 ≠ .error .invalidRequest) ∧
    (¬(3 ≤ days ∧ days ≤ 30) →
      getWeeklyReportBackend days gw = (.error .invalidRequest, 0)) := by
  constructor
  · intro h3 h30
    cases gw with
    | error g => cases g <;> simp [getWeeklyReportBackend, h3, h30, mapGatewayFailure]
    | ok o => cases o <;> simp [getWeeklyReportBackend, h3, h30]
  · intro h
    simp [getWeeklyReportBackend, h]

/-- Claim C4 witness: 7 days is accepted, 31 days is rejected without a
Gateway call. -/
theorem getWeeklyReportBackend_days_validation_witness :
    (getWeeklyReportBackend 7 (.error .unavailable)).1 ≠ .error .invalidRequest ∧
    getWeeklyReportBackend 31 (.error .unavailable) = (.error .invalidRequest, 0) :=
  ⟨(getWeeklyReportBackend_days_validation 7 (.error .unavailable)).1
      (by decide) (by decide),
   (getWeeklyReportBackend_days_validation 31 (.error .unavailable)).2 (by decide)⟩

lemma getAlternativeTechnique_ok_imp (excluded : String)
    (gw : Except GatewayFailure (Option AlternativeTechnique))
    (a : AlternativeTechnique) (h : getAlternativeTechnique excluded gw = .ok a) :
    lowerString a.technique ≠ lowerString excluded := by
  cases gw with
  | error g => simp [getAlternativeTechnique] at h
  | ok o =>
    cases o with
    | none => simp [getAlternativeTechnique] at h
    | some b =>
      simp only [getAlternativeTechnique] at h
      unfold validateAlternativeTechnique at h
      split_ifs at h with hc
      simp only [Except.ok.injEq] at h
      subst h
      exact hc.2.2.2.2.2

/-- Claim C5: a successfully generated `AlternativeTechnique` — whether through
`getAlternativeTechnique` or through the disliked-feedback path — is never
case-insensitively equal to the excluded technique name, and a model output
that violates the constraint makes the operation fail with `SchemaViolation`. -/
theorem alternativeTechnique_excludes_rejected (excluded : String)
    (gw : Except GatewayFailure (Option AlternativeTechnique))
    (a : AlternativeTechnique) :
    (getAlternativeTechnique excluded gw = .ok a →
      lowerString a.technique ≠ lowerString excluded) ∧
    (lowerString a.technique = lowerString excluded →
      getAlternativeTechnique excluded (.ok (some a)) = .error .schemaViolation) ∧
    (∀ (tech : String) (reason : Option String) (atype : AdviceType)
        (fid : Nat) (now : String),
      (recordFeedback tech false reason atype
        (getAlternativeTechnique excluded gw) fid now).2.alternative = some a →
      lowerString a.technique ≠ lowerString excluded) := by
  refine ⟨getAlternativeTechnique_ok_imp excluded gw a, ?_, ?_⟩
  · intro hb
    simp [getAlternativeTechnique, validateAlternativeTechnique, hb]
  · intro tech reason atype fid now h
    cases hgw : getAlternativeTechnique excluded gw with
    | error e => simp [recordFeedback, hgw] at h
    | ok x =>
      simp only [recordFeedback, hgw, if_neg Bool.false_ne_true,
        Option.some.injEq] at h
      exact h ▸ getAlternativeTechnique_ok_imp excluded gw x hgw

/-- Claim C5 witness: a distinct technique passes the validator; the excluded
technique itself is rejected with `SchemaViolation`. -/
theorem alternativeTechnique_excludes_rejected_witness :
    lowerString (AlternativeTechnique.mk "Feynman" "d" "s" ["a"] "t").technique ≠
      lowerString "Pomodoro" ∧
    getAlternativeTechnique "Pomodoro"
      (.ok (some ⟨"Pomodoro", "x", "y", ["s"], "z"⟩)) = .error .schemaViolation :=
  ⟨(alternativeTechnique_excludes_rejected "Pomodoro"
      (.ok (some ⟨"Feynman", "d", "s", ["a"], "t"⟩))
      ⟨"Feynman", "d", "s", ["a"], "t"⟩).1 (by rfl),
   (alternativeTechnique_excludes_rejected "Pomodoro"
      (.ok (some ⟨"Pomodoro", "x", "y", ["s"], "z"⟩))
      ⟨"Pomodoro", "x", "y", ["s"], "z"⟩).2.1 (by rfl)⟩

/-- Claim C6: a feedback submission with `liked = false` whose
alternative-generation step fails still completes: the response has
`success = true` and `alternative = null`, and the feedback record is
persisted with the submission's fields. -/
theorem feedback_failure_isolation (tech : String) (reason : Option String)
    (atype : AdviceType) (e : BackendError) (fid : Nat) (now : String) :
    (recordFeedback tech false reason atype (.error e) fid now).2.success = true ∧
    (recordFeedback tech false reason atype (.error e) fid now).2.alternative = none ∧
    (recordFeedback tech false reason atype (.error e) fid now).1 =
      { technique := tech
        liked := false
        rejection_reason := reason
        advice_type := atype
        created_at := now } :=
  ⟨rfl, rfl, rfl⟩

/-- An operation of the client layer issues exactly one outbound HTTP request
per invocation, its result is the classification of the single transport
outcome it consumed, and any failing outcome is propagated as that failure —
no second fetch, no backoff. -/
def singleRequestNoRetry {T : Type} (op : StateM (TraceState T) (Except ClientError T))
    (req : OutboundRequest) : Prop :=
  ∀ s : TraceState T,
    ((op.run s).2.sent = s.sent ++ [req]) ∧
    ((op.run s).1 = aiCoachFetchPure (s.stream s.sent.length)) ∧
    (∀ e, aiCoachFetchPure (s.stream s.sent.length) = .error e →
      (op.run s).1 = .error e)

/-- Claim C7: each of the five AI-coach operations performs exactly one
outbound HTTP request and propagates a failing transport outcome immediately,
with no retry anywhere in the client layer. -/
theorem client_operations_single_request (baseUrl token : String) :
    (∀ r : DailyAdviceRequest,
      singleRequestNoRetry (getDailyAdvice baseUrl token r)
        { url := baseUrl ++ "/api/ai" ++ "/daily-advice", method := "POST",
          auth := "Bearer " ++ token, body := r.toJson }) ∧
    (∀ r : WeeklyReportRequest,
      singleRequestNoRetry (getWeeklyReport baseUrl token r)
        { url := baseUrl ++ "/api/ai" ++ "/weekly-report", method := "POST",
          auth := "Bearer " ++ token, body := r.toJson }) ∧
    (∀ r : MotivationRequest,
      singleRequestNoRetry (getMotivation baseUrl token r)
        { url := baseUrl ++ "/api/ai" ++ "/motivation", method := "POST",
          auth := "Bearer " ++ token, body := r.toJson }) ∧
    (∀ r : FeedbackRequest,
      singleRequestNoRetry (sendFeedback baseUrl token r)
        { url := baseUrl ++ "/api/ai" ++ "/feedback", method := "POST",
          auth := "Bearer " ++ token, body := sendFeedbackBody r }) ∧
    (∀ sid : Int,
      singleRequestNoRetry (getSessionSummary baseUrl token sid)
        { url := baseUrl ++ "/api/ai" ++ "/session-summary", method := "POST",
          auth := "Bearer " ++ token, body := .obj [("session_id", .num sid)] }) :=
  ⟨fun _ _ => ⟨rfl, rfl, fun _ he => he⟩,
   fun _ _ => ⟨rfl, rfl, fun _ he => he⟩,
   fun _ _ => ⟨rfl, rfl, fun _ he => he⟩,
   fun _ _ => ⟨rfl, rfl, fun _ he => he⟩,
   fun _ _ => ⟨rfl, rfl, fun _ he => he⟩⟩

/-- Claim C7 witness: with a transport that is down, a daily-advice call
surfaces the network error directly. -/
theorem client_operations_single_request_witness :
    ((getDailyAdvice "http://h" "t" ⟨none⟩).run
      ⟨fun _ => .networkError "down", []⟩).1 =
      .error (.coach (networkFailureError "down")) := by
  have h := (client_operations_single_request "http://h" "t").1 ⟨none⟩
    ⟨fun _ => .networkError "down", []⟩
  exact h.2.2 _ rfl

/-- Claim C8: the body `sendFeedback` posts always carries `advice_type` —
the spread over the `advice_type: 'daily'` default keeps `daily` when the
caller omits the field and keeps the caller's value unchanged otherwise. -/
theorem sendFeedback_advice_type_defaulted (baseUrl token : String)
    (r : FeedbackRequest) (s : TraceState FeedbackResponse) :
    ((sendFeedback baseUrl token r).run s).2.sent =
      s.sent ++ [{ url := baseUrl ++ "/api/ai" ++ "/feedback", method := "POST",
                   auth := "Bearer " ++ token, body := sendFeedbackBody r }] ∧
    (r.advice_type = none →
      sendFeedbackBody r =
        .obj ([("advice_type", .str "daily"),
               ("technique", .str r.technique),
               ("liked", .boolean r.liked)] ++
              optField "rejection_reason" (r.rejection_reason.map .str))) ∧
    (∀ a, r.advice_type = some a →
      sendFeedbackBody r =
        .obj ([("advice_type", .str (advTypeString a)),
               ("technique", .str r.technique),
               ("liked", .boolean r.liked)] ++
              optField "rejection_reason" (r.rejection_reason.map .str))) := by
  refine ⟨rfl, fun h => ?_, fun a h => ?_⟩
  · simp [sendFeedbackBody, advTypeString, h]
  · simp [sendFeedbackBody, h]

/-- Claim C8 witness: a request that omits `advice_type` is sent with
`advice_type: daily`. -/
theorem sendFeedback_advice_type_defaulted_witness :
    sendFeedbackBody ⟨"Pomodoro", true, none, none⟩ =
      .obj [("advice_type", .str "daily"), ("technique", .str "Pomodoro"),
            ("liked", .boolean true)] := by
  have h := (sendFeedback_advice_type_defaulted "u" "t"
    ⟨"Pomodoro", true, none, none⟩ ⟨fun _ => .networkError "x", []⟩).2.1 rfl
  simpa [optField] using h

/-- Claim C9 counterexample: a fetch outcome — the promise resolves but the
body is not valid JSON — on which `checkAIHealth` does not return an
`AIHealthStatus`: the un-awaited `response.json()` rejection escapes the
`try/catch` and the call throws. -/
theorem checkAIHealth_not_total_counterexample :
    checkAIHealth (.response { status := 200, jsonOk := none, jsonDetail := none })
      "2026-10-11T00:00:00Z" = .error .jsonSyntax := rfl

/-- Claim C9 (amended): `checkAIHealth` returns an `AIHealthStatus` whenever
the fetch rejects — then with status unhealthy, a null model, a non-null
error string and the current timestamp — or the response body parses as an
`AIHealthStatus`; when the body is not valid JSON the parse rejection escapes
the `try/catch` (the promise is returned without `await`) and the call
throws. -/
theorem checkAIHealth_fetch_reject_total (msg now : String)
    (r : HttpResponse AIHealthStatus) :
    checkAIHealth (.networkError msg) now =
      .ok { status := .unhealthy, model := none,
            error := some "Servise ulaşılamıyor", checked_at := now } ∧
    (some "Servise ulaşılamıyor" ≠ (none : Option String)) ∧
    (∀ v, r.jsonOk = some v → checkAIHealth (.response r) now = .ok v) ∧
    (r.jsonOk = none → checkAIHealth (.response r) now = .error .jsonSyntax) := by
  refine ⟨rfl, by simp, fun v hv => ?_, fun hn => ?_⟩
  · simp [checkAIHealth, hv]
  · simp [checkAIHealth, hn]

/-- Claim C9 witness: a healthy JSON body is returned as parsed. -/
theorem checkAIHealth_fetch_reject_total_witness :
    checkAIHealth
      (.response ⟨200, some ⟨.healthy, some "gemini-2.5-flash-lite", none, "t0"⟩, none⟩)
      "t1" =
      .ok ⟨.healthy, some "gemini-2.5-flash-lite", none, "t0"⟩ :=
  (checkAIHealth_fetch_reject_total "m" "t1"
    ⟨200, some ⟨.healthy, some "gemini-2.5-flash-lite", none, "t0"⟩, none⟩).2.2.1 _ rfl

/-- Claim C10: a transport failure before any response throws an
`AICoachError` with status code 0 — not 401 — and `isAuthError` is false for
it, so connectivity loss is never classified as an authentication failure. -/
theorem network_failure_not_auth (msg : String) :
    aiCoachFetchPure (T := Unit) (.networkError msg) =
      .error (.coach (networkFailureError msg)) ∧
    (networkFailureError msg).statusCode = 0 ∧
    (networkFailureError msg).statusCode ≠ 401 ∧
    isAuthError (.coach (networkFailureError msg)) = false :=
  ⟨rfl, rfl, by simp [networkFailureError], rfl⟩

end PersonaSync
